import Mathlib

/-!
Shallow embedding of the go-fritzbox client library (session lifecycle,
challenge-response hashing, transport status handling and the device
command layer), translated from the Go sources, together with theorems
settling the specification claims about it.

Machine words are modelled as Nat with explicit reduction modulo 2^32
(or 2^16 / 2^8) where the Go code relies on fixed-width arithmetic.
-/

set_option maxRecDepth 4000

/-- Concatenation-map over lists, used to model Go loops that append a
block of bytes per element. -/
def flatMapL {α β : Type} (f : α → List β) : List α → List β
  | [] => []
  | a :: t => f a ++ flatMapL f t

/-- Little-endian byte expansion: k bytes of n, least significant first.
Models Go binary.LittleEndian writes of fixed-width integers. -/
def leBytes : Nat → Nat → List Nat
  | 0, _ => []
  | k + 1, n => n % 256 :: leBytes k (n / 256)

/- ### MD5 (crypto/md5), used by computeResponse -/

def md5K : List Nat :=
  [0xd76aa478, 0xe8c7b756, 0x242070db, 0xc1bdceee,
   0xf57c0faf, 0x4787c62a, 0xa8304613, 0xfd469501,
   0x698098d8, 0x8b44f7af, 0xffff5bb1, 0x895cd7be,
   0x6b901122, 0xfd987193, 0xa679438e, 0x49b40821,
   0xf61e2562, 0xc040b340, 0x265e5a51, 0xe9b6c7aa,
   0xd62f105d, 0x02441453, 0xd8a1e681, 0xe7d3fbc8,
   0x21e1cde6, 0xc33707d6, 0xf4d50d87, 0x455a14ed,
   0xa9e3e905, 0xfcefa3f8, 0x676f02d9, 0x8d2a4c8a,
   0xfffa3942, 0x8771f681, 0x6d9d6122, 0xfde5380c,
   0xa4beea44, 0x4bdecfa9, 0xf6bb4b60, 0xbebfbc70,
   0x289b7ec6, 0xeaa127fa, 0xd4ef3085, 0x04881d05,
   0xd9d4d039, 0xe6db99e5, 0x1fa27cf8, 0xc4ac5665,
   0xf4292244, 0x432aff97, 0xab9423a7, 0xfc93a039,
   0x655b59c3, 0x8f0ccc92, 0xffeff47d, 0x85845dd1,
   0x6fa87e4f, 0xfe2ce6e0, 0xa3014314, 0x4e0811a1,
   0xf7537e82, 0xbd3af235, 0x2ad7d2bb, 0xeb86d391]

def md5S : List Nat :=
  [7, 12, 17, 22, 7, 12, 17, 22, 7, 12, 17, 22, 7, 12, 17, 22,
   5, 9, 14, 20, 5, 9, 14, 20, 5, 9, 14, 20, 5, 9, 14, 20,
   4, 11, 16, 23, 4, 11, 16, 23, 4, 11, 16, 23, 4, 11, 16, 23,
   6, 10, 15, 21, 6, 10, 15, 21, 6, 10, 15, 21, 6, 10, 15, 21]

/-- Bitwise complement on 32-bit words represented as Nat below 2^32. -/
def not32 (x : Nat) : Nat := 4294967295 ^^^ (x % 4294967296)

/-- 32-bit left rotation. -/
def rotl32 (x n : Nat) : Nat :=
  (((x % 4294967296) <<< n) % 4294967296) ||| ((x % 4294967296) >>> (32 - n))

/-- Group a byte list into little-endian 32-bit words. -/
def leWords : List Nat → List Nat
  | b0 :: b1 :: b2 :: b3 :: rest =>
      (b0 + 256 * b1 + 65536 * b2 + 16777216 * b3) :: leWords rest
  | _ => []

/-- One of the 64 MD5 mixing steps. -/
def md5Round (M : List Nat) (st : Nat × Nat × Nat × Nat) (i : Nat) :
    Nat × Nat × Nat × Nat :=
  let a := st.1
  let b := st.2.1
  let c := st.2.2.1
  let d := st.2.2.2
  let fg : Nat × Nat :=
    if i < 16 then ((b &&& c) ||| (not32 b &&& d), i)
    else if i < 32 then ((d &&& b) ||| (not32 d &&& c), (5 * i + 1) % 16)
    else if i < 48 then (b ^^^ c ^^^ d, (3 * i + 5) % 16)
    else (c ^^^ (b ||| not32 d), (7 * i) % 16)
  let f2 := (fg.1 + a + md5K.getD i 0 + M.getD fg.2 0) % 4294967296
  (d, (b + rotl32 f2 (md5S.getD i 0)) % 4294967296, b, c)

/-- Process one 64-byte block. -/
def md5Compress (block : List Nat) (st : Nat × Nat × Nat × Nat) :
    Nat × Nat × Nat × Nat :=
  let M := leWords block
  let r := (List.range 64).foldl (md5Round M) st
  ((st.1 + r.1) % 4294967296, (st.2.1 + r.2.1) % 4294967296,
   (st.2.2.1 + r.2.2.1) % 4294967296, (st.2.2.2 + r.2.2.2) % 4294967296)

/-- MD5 padding: a 0x80 byte, zeros to 56 mod 64, then the bit length
as a little-endian 64-bit integer. -/
def md5pad (msg : List Nat) : List Nat :=
  let len := msg.length
  let zeros := (64 + 56 - ((len + 1) % 64)) % 64
  msg ++ 128 :: (List.replicate zeros 0 ++ leBytes 8 (len * 8))

def md5Init : Nat × Nat × Nat × Nat :=
  (0x67452301, 0xefcdab89, 0x98badcfe, 0x10325476)

/-- MD5 digest of a byte sequence, as its 16 bytes. -/
def md5 (msg : List Nat) : List Nat :=
  let padded := md5pad msg
  let st := (List.range (padded.length / 64)).foldl
    (fun st i => md5Compress ((padded.drop (64 * i)).take 64) st) md5Init
  leBytes 4 st.1 ++ leBytes 4 st.2.1 ++ leBytes 4 st.2.2.1 ++ leBytes 4 st.2.2.2

/- ### Lowercase hexadecimal formatting (Go fmt %x on a byte array) -/

def hexDigit (n : Nat) : Char :=
  if n < 10 then Char.ofNat (48 + n) else Char.ofNat (87 + n)

def byteToHexChars (b : Nat) : List Char :=
  [hexDigit (b / 16 % 16), hexDigit (b % 16)]

def bytesToHex (bs : List Nat) : String :=
  ⟨flatMapL byteToHexChars bs⟩

/- ### computeResponse (session.go) -/

/-- UTF-16 code units of one character (unicode/utf16 Encode for a
valid scalar value). -/
def encodeChar (c : Char) : List Nat :=
  if c.toNat < 65536 then [c.toNat]
  else [55296 + (c.toNat - 65536) / 1024, 56320 + (c.toNat - 65536) % 1024]

/-- UTF-16 code units of a string (utf16.Encode of the rune slice). -/
def utf16Encode (s : String) : List Nat :=
  flatMapL encodeChar s.data

/-- AVM substitution plus little-endian write of one 16-bit code unit:
units above 255 are replaced by 0x2E before being written. -/
def subB16 (u : Nat) : List Nat :=
  let u2 := if 255 < u then 46 else u
  [u2 % 256, u2 / 256 % 256]

/-- Byte stream hashed by computeResponse: the UTF-16 little-endian
encoding of the text, with every unit above 255 replaced by 0x2E. -/
def fritzEncode (s : String) : List Nat :=
  flatMapL subB16 (utf16Encode s)

/-- computeResponse (session.go): challenge-response proof
challenge ++ "-" ++ lowercase-hex MD5 of the substituted UTF-16LE bytes
of challenge ++ "-" ++ secret. -/
def computeResponse (challenge secret : String) : String :=
  let digest := md5 (fritzEncode (challenge ++ "-" ++ secret))
  challenge ++ "-" ++ bytesToHex digest

/- ### Error taxonomy

The Go code returns sentinel errors (ErrInvalidCred, ErrExpiredSess) and
ad-hoc fmt.Errorf strings; the specification names them as a taxonomy,
which this inductive mirrors. -/

inductive FBError where
  | invalidCred
  | expiredSess
  | transportError
  | wrongStatusCode
  | deviceNotConnected
  | deviceLocked
  | unsupportedOperation
  | invalidArgument
  | deviceOff
  | inconsistentResponse
  | decodeError
  | deviceNotFound
  deriving DecidableEq

/- ### Session (session.go)

Go time.Time is modelled as Nat nanoseconds, with 0 standing for the
zero value time.Time{} that a never-authenticated session carries.
Durations use Go units: time.Minute = 6e10 nanoseconds. -/

def DefaultSid : String := "0000000000000000"

/-- DefaultExpires = 10 * time.Minute, in nanoseconds. -/
def DefaultExpires : Nat := 600000000000

structure Session where
  sid : String
  challenge : String
  blockTime : Nat
  expires : Nat
  deriving DecidableEq

/-- The decoded fields of a SessionInfo XML body returned by the login
endpoint. -/
structure SessionInfo where
  sid : String
  challenge : String
  blockTime : Nat
  deriving DecidableEq

/-- newSession: the Go zero value of the struct (the client back
pointer is represented by how the functions below are wired, not as a
field). -/
def newSession : Session :=
  { sid := "", challenge := "", blockTime := 0, expires := 0 }

/-- Session.Close: sets sid back to the sentinel. -/
def Session.close (s : Session) : Session :=
  { s with sid := DefaultSid }

/-- Session.IsExpired: s.Expires.Before(time.Now()), a strict
comparison. -/
def Session.isExpired (s : Session) (now : Nat) : Bool :=
  s.expires < now

/-- Session.Refresh: if the session is expired and an expiry had been
set, close it and fail; otherwise slide the expiry to now plus the
window. Returns the mutated session and the error, if any. -/
def Session.refresh (s : Session) (now : Nat) : Session × Option FBError :=
  if s.isExpired now && s.expires != 0 then (s.close, some .expiredSess)
  else ({ s with expires := now + DefaultExpires }, none)

/-- XML decoding of a SessionInfo body into a session, as performed by
Client.Do for the login requests: overwrites sid, challenge and block
time, leaves Expires alone (tagged xml:"-"). -/
def decodeInfo (s : Session) (info : SessionInfo) : Session :=
  { s with sid := info.sid, challenge := info.challenge,
           blockTime := info.blockTime }

/-- The form body Session.Auth posts to login_sid.lua. -/
structure AuthRequest where
  username : String
  response : String
  deriving DecidableEq

/-- Session.Auth (session.go), for a session whose owning client has no
attached session (as in the reference tests that drive Auth directly):
computes the challenge response, posts username and response, decodes
the returned SessionInfo into the session, fails with InvalidCredentials
on the sentinel sid, and otherwise calls Refresh discarding the error
Refresh may return. The network exchange is assumed to succeed and
deliver `info`; `now` is the current time during the call. -/
def Session.auth (s : Session) (now : Nat) (username password : String)
    (info : SessionInfo) : AuthRequest × Session × Option FBError :=
  let req : AuthRequest :=
    { username := username, response := computeResponse s.challenge password }
  let s1 := decodeInfo s info
  if s1.sid = DefaultSid then (req, s1, some .invalidCred)
  else (req, (s1.refresh now).1, none)

/- ### Transport / Client (fritzbox.go) -/

/-- An HTTP response as seen by Client.Do. -/
structure HttpResponse where
  statusCode : Nat
  contentType : String
  body : String
  deriving DecidableEq

/-- The kind of decode target v passed to Client.Do: nil, an io.Writer
sink, or a structure to be XML/JSON decoded. -/
inductive DecodeTarget where
  | noTarget
  | writer
  | structured
  deriving DecidableEq

/-- What Client.Do did to the response body. -/
inductive DecodeAction where
  | nothing
  | copied (body : String)
  | xmlDecoded (body : String)
  | jsonDecoded (body : String)
  | xmlThenJsonDecoded (body : String)
  | leftUnpopulated
  deriving DecidableEq

inductive DoResult where
  | err (e : FBError)
  | ok (a : DecodeAction)
  deriving DecidableEq

/-- Substring test on character lists (strings.Contains). -/
def containsSub (hay needle : List Char) : Bool :=
  match hay with
  | [] => needle.isEmpty
  | _ :: t => needle.isPrefixOf hay || containsSub t needle

def goContains (s sub : String) : Bool :=
  containsSub s.data sub.data

/-- The body handling at the end of Client.Do: io.Writer targets get
the raw body copied; otherwise the declared content type selects XML
and/or JSON decoding; an unrecognized content type leaves the target
untouched. -/
def decodeBody (t : DecodeTarget) (contentType body : String) : DecodeAction :=
  match t with
  | .noTarget => .nothing
  | .writer => .copied body
  | .structured =>
    if goContains contentType "text/xml" then
      if goContains contentType "application/json" then .xmlThenJsonDecoded body
      else .xmlDecoded body
    else if goContains contentType "application/json" then .jsonDecoded body
    else .leftUnpopulated

/-- Client.Do (fritzbox.go): refresh the attached session if any, then
check the status code with the source condition 200 < c && c > 299, then
dispatch on the decode target. Returns the possibly mutated session and
the outcome. -/
def clientDo (sess : Option Session) (now : Nat) (t : DecodeTarget)
    (resp : HttpResponse) : Option Session × DoResult :=
  match sess with
  | some s =>
    match s.refresh now with
    | (s2, some e) => (some s2, .err e)
    | (s2, none) =>
      if 200 < resp.statusCode ∧ resp.statusCode > 299 then
        (some s2, .err .wrongStatusCode)
      else (some s2, .ok (decodeBody t resp.contentType resp.body))
  | none =>
    if 200 < resp.statusCode ∧ resp.statusCode > 299 then
      (none, .err .wrongStatusCode)
    else (none, .ok (decodeBody t resp.contentType resp.body))

/- ### Client lifecycle (fritzbox.go) -/

def defaultBaseURL : String := "http://fritz.box/"

structure Client where
  baseURL : String
  session : Option Session
  deriving DecidableEq

/-- NewClient: default base URL, no session. -/
def newClient : Client :=
  { baseURL := defaultBaseURL, session := none }

/-- Client.Close runs c.session.Close(); on a client whose session is
nil this dereferences a nil pointer, modelled as none. -/
def Client.close (c : Client) : Option Client :=
  match c.session with
  | none => none
  | some s => some { c with session := some s.close }

/-- Client.Auth (fritzbox.go): reuse or create the session, store it on
the client, run Session.Open then Session.Auth. Both steps go through
Client.Do, which first refreshes the attached session. The network
outcomes of the two exchanges are supplied as openNet / authNet, with
none standing for a transport failure. -/
def Client.auth (c : Client) (now : Nat) (username password : String)
    (openNet authNet : Option SessionInfo) : Client × Option FBError :=
  let s0 := c.session.getD newSession
  match s0.refresh now with
  | (s1, some e) => ({ c with session := some s1 }, some e)
  | (s1, none) =>
    match openNet with
    | none => ({ c with session := some s1 }, some .transportError)
    | some oInfo =>
      let s2 := decodeInfo s1 oInfo
      match s2.refresh now with
      | (s3, some e) => ({ c with session := some s3 }, some e)
      | (s3, none) =>
        match authNet with
        | none => ({ c with session := some s3 }, some .transportError)
        | some aInfo =>
          let r := s3.auth now username password aInfo
          ({ c with session := some r.2.1 }, r.2.2)

/- ### Device command layer (devices.go) -/

structure Device where
  identifier : String
  connected : Bool
  functionBitMask : Nat
  firmware : String
  manufacturer : String
  name : String
  lock : Bool
  deriving DecidableEq

def Device.isConnected (d : Device) : Bool := d.connected
def Device.isLocked (d : Device) : Bool := d.lock
def Device.isThermostat (d : Device) : Bool := d.functionBitMask &&& (1 <<< 6) != 0
def Device.isSocket (d : Device) : Bool := d.functionBitMask &&& (1 <<< 9) != 0
def Device.hasTemperature (d : Device) : Bool := d.functionBitMask &&& (1 <<< 8) != 0
def Device.hasEnergy (d : Device) : Bool := d.functionBitMask &&& (1 <<< 7) != 0

/-- cleanAin (devices.go): strings.Replace(str, " ", "", -1), removing
every space character. -/
def cleanAin (str : String) : String :=
  ⟨str.data.filter (fun c => c != ' ')⟩

/-- precheck (devices.go): connectivity first, then the lock when the
operation requires an unlocked device. -/
def precheck (d : Device) (lock : Bool) : Option FBError :=
  if !d.isConnected then some .deviceNotConnected
  else if d.isLocked && lock then some .deviceLocked
  else none

/-- commandURL (devices.go): the query parameter set of a command;
switchcmd plus the per-command parameters, modelled as a pair list. -/
def commandURL (cmd : String) (cmds : List (String × String)) :
    List (String × String) :=
  ("switchcmd", cmd) :: cmds

/-- unicode.IsSpace, for strings.TrimSpace. -/
def goIsSpace (c : Char) : Bool :=
  c == ' ' || c == '\t' || c == '\n' || c.toNat == 11 || c.toNat == 12 ||
  c == '\r' || c.toNat == 0x85 || c.toNat == 0xA0 || c.toNat == 0x1680 ||
  (0x2000 ≤ c.toNat && c.toNat ≤ 0x200A) || c.toNat == 0x2028 ||
  c.toNat == 0x2029 || c.toNat == 0x202F || c.toNat == 0x205F ||
  c.toNat == 0x3000

/-- strings.TrimSpace. -/
def goTrimSpace (s : String) : String :=
  ⟨((s.data.dropWhile goIsSpace).reverse.dropWhile goIsSpace).reverse⟩

/-- strconv.ParseInt(s, 10, 64): optional sign, a nonempty run of
decimal digits, and an int64 range check; none models the error case. -/
def goParseInt (s : String) : Option Int :=
  match s.data with
  | [] => none
  | c :: rest =>
    let signDigits : Bool × List Char :=
      if c = '-' then (true, rest)
      else if c = '+' then (false, rest)
      else (false, c :: rest)
    let digits := signDigits.2
    if digits.isEmpty then none
    else if digits.all Char.isDigit then
      let n : Nat := digits.foldl (fun acc d => acc * 10 + (d.toNat - 48)) 0
      let v : Int := if signDigits.1 then -(n : Int) else (n : Int)
      if -(2 ^ 63) ≤ v ∧ v ≤ 2 ^ 63 - 1 then some v else none
    else none

/-- Round a rational to the nearest integer, ties to even: the rounding
Go fmt uses for %.0f. -/
def roundHalfEven (q : ℚ) : ℤ :=
  if q - ⌊q⌋ < 1 / 2 then ⌊q⌋
  else if 1 / 2 < q - ⌊q⌋ then ⌊q⌋ + 1
  else if ⌊q⌋ % 2 = 0 then ⌊q⌋ else ⌊q⌋ + 1

/-- fmt.Sprintf("%2.0f", q): round ties-to-even to an integer, print in
base 10, left-pad with spaces to width 2. -/
def sprintfW2P0 (q : ℚ) : String :=
  let s := toString (roundHalfEven q)
  if s.length < 2 then " " ++ s else s

/-- GetPower (devices.go): precheck without the lock, require the
energy capability, issue getswitchpower, parse the trimmed body as a
base-10 integer; parse failures propagate. Result: the request sent (if
any), the returned value, and the error. -/
def getPower (d : Device) (body : String) :
    Option (List (String × String)) × Int × Option FBError :=
  match precheck d false with
  | some e => (none, 0, some e)
  | none =>
    if !d.hasEnergy then (none, 0, some .unsupportedOperation)
    else
      let ps := commandURL "getswitchpower" [("ain", cleanAin d.identifier)]
      match goParseInt (goTrimSpace body) with
      | none => (some ps, 0, some .decodeError)
      | some v => (some ps, v, none)

/-- GetEnergy (devices.go): like GetPower but issuing getswitchenergy;
NOTE the source parse-error branch reads `return 0, nil`, returning the
zero value with a nil error instead of propagating the parse error. -/
def getEnergy (d : Device) (body : String) :
    Option (List (String × String)) × Int × Option FBError :=
  match precheck d false with
  | some e => (none, 0, some e)
  | none =>
    if !d.hasEnergy then (none, 0, some .unsupportedOperation)
    else
      let ps := commandURL "getswitchenergy" [("ain", cleanAin d.identifier)]
      match goParseInt (goTrimSpace body) with
      | none => (some ps, 0, none)
      | some v => (some ps, v, none)

/-- GetSollTemperature (devices.go): thermostat check first, then
precheck without the lock, issue gethkrtsoll, parse the trimmed body;
253 and 254 surface as the device-off error, any other value is halved.
The temperature is returned as an exact rational. -/
def getSollTemperature (d : Device) (body : String) :
    Option (List (String × String)) × ℚ × Option FBError :=
  if !d.isThermostat then (none, 0, some .unsupportedOperation)
  else
    match precheck d false with
    | some e => (none, 0, some e)
    | none =>
      let ps := commandURL "gethkrtsoll" [("ain", cleanAin d.identifier)]
      match goParseInt (goTrimSpace body) with
      | none => (some ps, 0, some .decodeError)
      | some temp =>
        if temp = 253 ∨ temp = 254 then (some ps, 0, some .deviceOff)
        else (some ps, (temp : ℚ) / 2, none)

/-- SetSollTemperature (devices.go): precheck with the lock, thermostat
check, range check on [8, 28], then send sethkrtsoll with
param = Sprintf("%2.0f", temp*2) and compare the trimmed echoed body
against the sent parameter. Result: the param sent (none when no
request was issued) and the error, if any. -/
def setSollTemperature (d : Device) (temp : ℚ) (body : String) :
    Option String × Option FBError :=
  match precheck d true with
  | some e => (none, some e)
  | none =>
    if !d.isThermostat then (none, some .unsupportedOperation)
    else if temp < 8 ∨ temp > 28 then (none, some .invalidArgument)
    else
      let param := sprintfW2P0 (temp * 2)
      if goTrimSpace body != param then (some param, some .inconsistentResponse)
      else (some param, none)

/- ### Shared concrete fixtures for witnesses and counterexamples -/

/-- A connected, unlocked thermostat (capability bit 6). -/
def deviceThermo : Device :=
  { identifier := "th 01", connected := true, functionBitMask := 64,
    firmware := "", manufacturer := "", name := "", lock := false }

/-- A connected device with the energy-metering capability (bit 7). -/
def deviceEnergy : Device :=
  { identifier := "08761 0000434", connected := true, functionBitMask := 128,
    firmware := "", manufacturer := "", name := "", lock := false }

/-- Substitution relation justified by the code: two character lists
that agree pointwise except that characters above code point 255 and
within the 16-bit range may be interchanged. -/
def bmpSwapList : List Char → List Char → Bool
  | [], [] => true
  | c1 :: t1, c2 :: t2 =>
    (c1 == c2 || (decide (255 < c1.toNat) && decide (c1.toNat ≤ 65535) &&
                  decide (255 < c2.toNat) && decide (c2.toNat ≤ 65535))) &&
    bmpSwapList t1 t2
  | _, _ => false

/-- Modelled from the claim: its substitution relation, allowing any
character above code point 255 to be replaced by any other character
above code point 255, with no 16-bit restriction. -/
def claimSwapList : List Char → List Char → Bool
  | [], [] => true
  | c1 :: t1, c2 :: t2 =>
    (c1 == c2 || (decide (255 < c1.toNat) && decide (255 < c2.toNat))) &&
    claimSwapList t1 t2
  | _, _ => false

/- ### Claim-side comparison definitions -/

/-- Modelled from the spec: the claimed identifier cleaning, removing
every whitespace character rather than only spaces. -/
def specStripWhitespace (str : String) : String :=
  ⟨str.data.filter (fun c => !goIsSpace c)⟩

/-- Modelled from the claim: round(degrees * 2) with the standard
rounding function (Mathlib round, ties away from zero on positive
arguments), rendered as a base-10 string. -/
def claimedSetSollParam (temp : ℚ) : String :=
  toString (round (temp * 2))

/- ### Theorems -/

theorem flatMapL_append {α β : Type} (f : α → List β) (l1 l2 : List α) :
    flatMapL f (l1 ++ l2) = flatMapL f l1 ++ flatMapL f l2 := by
  induction l1 with
  | nil => rfl
  | cons a t ih => simp [flatMapL, ih]

theorem flatMapL_length_const {α β : Type} (f : α → List β) (k : Nat)
    (hf : ∀ a, (f a).length = k) (l : List α) :
    (flatMapL f l).length = k * l.length := by
  induction l with
  | nil => simp [flatMapL]
  | cons a t ih => simp [flatMapL, hf, ih, Nat.mul_succ]; omega

theorem leBytes_length (k n : Nat) : (leBytes k n).length = k := by
  induction k generalizing n with
  | zero => rfl
  | succ k ih => simp [leBytes, ih]

theorem md5_length (msg : List Nat) : (md5 msg).length = 16 := by
  simp [md5, leBytes_length]

theorem bytesToHex_length (bs : List Nat) :
    (bytesToHex bs).length = 2 * bs.length := by
  simp [bytesToHex, String.length]
  exact flatMapL_length_const byteToHexChars 2 (fun _ => rfl) bs

/-- Fidelity check against the test vector in the repository suite:
computeResponse("1234567z", "äbc"). -/
theorem computeResponse_testVector1 :
    computeResponse "1234567z" "äbc" =
      "1234567z-9e224a41eeefa284df7bb0f26c2913e2" := by decide

/-- Fidelity check against the second repository test vector, whose
password contains the non-Latin-1 character U+20AC. -/
theorem computeResponse_testVector2 :
    computeResponse "1234567z" "äbz€" =
      "1234567z-eefe7c82f8f122671950682d0be94e52" := by decide

/- ### C2 -/

/-- C2: when Session.Auth receives a gateway response whose SID is the
16-zero-character sentinel, it fails with InvalidCredentials and the
session sid is left at the sentinel, for every username, password, time
and prior session state. -/
theorem auth_invalid_spec (s : Session) (now : Nat)
    (username password : String) (info : SessionInfo)
    (h : info.sid = DefaultSid) :
    (s.auth now username password info).2.2 = some FBError.invalidCred ∧
    (s.auth now username password info).2.1.sid = DefaultSid := by
  simp [Session.auth, decodeInfo, h]

/-- Witness for auth_invalid_spec at the reference-test inputs. -/
theorem auth_invalid_spec_witness :
    (Session.auth ⟨DefaultSid, "1234567z", 0, 0⟩ 10 "Username" "äbz"
        ⟨DefaultSid, "1234567z", 0⟩).2.2 = some FBError.invalidCred ∧
    (Session.auth ⟨DefaultSid, "1234567z", 0, 0⟩ 10 "Username" "äbz"
        ⟨DefaultSid, "1234567z", 0⟩).2.1.sid = DefaultSid :=
  auth_invalid_spec ⟨DefaultSid, "1234567z", 0, 0⟩ 10 "Username" "äbz"
    ⟨DefaultSid, "1234567z", 0⟩ rfl

/- ### C1 -/

/-- C1 (amended): when Session.Auth receives a response with a
non-sentinel SID and the session's stored expiry is unset or has not
yet passed, Auth returns no error, the sid becomes the returned token,
and the expiry is reset to now plus the 10-minute window. -/
theorem auth_success_spec (s : Session) (now : Nat)
    (username password : String) (info : SessionInfo)
    (hsid : info.sid ≠ DefaultSid)
    (hfresh : s.expires = 0 ∨ now ≤ s.expires) :
    (s.auth now username password info).2.2 = none ∧
    (s.auth now username password info).2.1.sid = info.sid ∧
    (s.auth now username password info).2.1.expires = now + DefaultExpires := by
  have hcond : (decide (s.expires < now) && (s.expires != 0)) = false := by
    rcases hfresh with h | h <;> simp [h]
  simp [Session.auth, decodeInfo, Session.refresh, Session.isExpired, hsid, hcond]

/-- Witness for auth_success_spec at the reference-test inputs. -/
theorem auth_success_spec_witness :
    (Session.auth ⟨DefaultSid, "1234567z", 0, 0⟩ 10 "username" "äbc"
        ⟨"ff88e4d39354992f", "1234567z", 0⟩).2.2 = none ∧
    (Session.auth ⟨DefaultSid, "1234567z", 0, 0⟩ 10 "username" "äbc"
        ⟨"ff88e4d39354992f", "1234567z", 0⟩).2.1.sid = "ff88e4d39354992f" ∧
    (Session.auth ⟨DefaultSid, "1234567z", 0, 0⟩ 10 "username" "äbc"
        ⟨"ff88e4d39354992f", "1234567z", 0⟩).2.1.expires = 10 + DefaultExpires :=
  auth_success_spec ⟨DefaultSid, "1234567z", 0, 0⟩ 10 "username" "äbc"
    ⟨"ff88e4d39354992f", "1234567z", 0⟩ (by decide) (Or.inl rfl)

/-- C1 counterexample: on a session whose stored expiry is set and in
the past, Session.Auth still returns no error (the result of the inner
Refresh is discarded), but the sid ends at the sentinel instead of the
returned token and the expiry is not reset. -/
theorem auth_stale_counterexample :
    (Session.auth ⟨DefaultSid, "1234567z", 0, 5⟩ 10 "username" "secret"
        ⟨"ff88e4d39354992f", "1234567z", 0⟩).2.2 = none ∧
    (Session.auth ⟨DefaultSid, "1234567z", 0, 5⟩ 10 "username" "secret"
        ⟨"ff88e4d39354992f", "1234567z", 0⟩).2.1.sid = DefaultSid ∧
    ("ff88e4d39354992f" : String) ≠ DefaultSid ∧
    (Session.auth ⟨DefaultSid, "1234567z", 0, 5⟩ 10 "username" "secret"
        ⟨"ff88e4d39354992f", "1234567z", 0⟩).2.1.expires = 5 := by
  refine ⟨rfl, rfl, by decide, rfl⟩

/- ### C3 -/

/-- C3: Refresh on a session with a set, past expiry closes the session
(sid to the sentinel) and fails with SessionExpired; on a zero-value
expiry it succeeds setting now plus the window; and every non-failing
Refresh slides the expiry to now plus the window. -/
theorem refresh_spec (s : Session) (now : Nat) :
    (s.expires ≠ 0 → s.expires < now →
      s.refresh now = ({ s with sid := DefaultSid }, some FBError.expiredSess)) ∧
    (s.expires = 0 →
      s.refresh now = ({ s with expires := now + DefaultExpires }, none)) ∧
    ((s.refresh now).2 = none →
      (s.refresh now).1 = { s with expires := now + DefaultExpires }) := by
  refine ⟨fun h1 h2 => ?_, fun h0 => ?_, fun hn => ?_⟩
  · simp [Session.refresh, Session.isExpired, Session.close, h1, h2]
  · simp [Session.refresh, Session.isExpired, h0]
  · by_cases hc : (decide (s.expires < now) && (s.expires != 0)) = true
    · simp [Session.refresh, Session.isExpired, hc] at hn
    · simp only [Bool.not_eq_true] at hc
      simp [Session.refresh, Session.isExpired, hc]

/-- Witness for refresh_spec: a stale authenticated session is closed
with SessionExpired, a never-authenticated session gets an expiry. -/
theorem refresh_spec_witness :
    Session.refresh ⟨"ff88e4d39354992f", "1234567z", 0, 5⟩ 10 =
      (⟨DefaultSid, "1234567z", 0, 5⟩, some FBError.expiredSess) ∧
    Session.refresh ⟨"", "", 0, 0⟩ 10 =
      (⟨"", "", 0, 10 + DefaultExpires⟩, none) :=
  ⟨(refresh_spec ⟨"ff88e4d39354992f", "1234567z", 0, 5⟩ 10).1 (by decide) (by decide),
   (refresh_spec ⟨"", "", 0, 0⟩ 10).2.1 rfl⟩

/- ### C5 -/

/-- C5 (code evaluation): the status check in Client.Do is the source
condition 200 < c && c > 299, which accepts every status below 300; an
HTTP 100 response, although outside the 2xx success range, is treated
as success and its body is XML-decoded into the target, while a 400
response is rejected. -/
theorem clientDo_status100_decodes :
    clientDo none 0 DecodeTarget.structured
        ⟨100, "text/xml", "<foo/>"⟩ =
      (none, DoResult.ok (DecodeAction.xmlDecoded "<foo/>")) ∧
    clientDo none 0 DecodeTarget.structured
        ⟨400, "text/xml", "<foo/>"⟩ =
      (none, DoResult.err FBError.wrongStatusCode) := by
  decide

/- ### C9 -/

/-- C9 (code evaluation): GetEnergy on a connected energy-metering
device with an unparseable body returns the value 0 with no error (the
source branch reads return 0, nil), whereas the parallel branch of
GetPower propagates the parse error as the claim describes. -/
theorem getEnergy_swallows_parse_error :
    goParseInt (goTrimSpace "abc") = none ∧
    (getEnergy deviceEnergy "abc").2 = (0, none) ∧
    (getPower deviceEnergy "abc").2 = (0, some FBError.decodeError) := by
  decide

/- ### C7 -/

/-- C7: for a connected thermostat whose response body parses to an
integer, GetSollTemperature fails with DeviceOff exactly on the
sentinels 253 and 254, and otherwise returns the parsed integer halved,
with no error. -/
theorem getSollTemperature_spec (d : Device) (body : String) (v : Int)
    (ht : d.isThermostat = true) (hc : d.connected = true)
    (hp : goParseInt (goTrimSpace body) = some v) :
    ((v = 253 ∨ v = 254) →
      (getSollTemperature d body).2.2 = some FBError.deviceOff) ∧
    (v ≠ 253 → v ≠ 254 →
      (getSollTemperature d body).2 = ((v : ℚ) / 2, none)) := by
  constructor
  · intro hv
    simp [getSollTemperature, precheck, Device.isConnected, Device.isLocked,
      ht, hc, hp, hv]
  · intro h1 h2
    simp [getSollTemperature, precheck, Device.isConnected, Device.isLocked,
      ht, hc, hp, h1, h2]

/-- Witness for getSollTemperature_spec: a decoded 32 yields 16 degrees
and a decoded 253 yields DeviceOff. -/
theorem getSollTemperature_spec_witness :
    (getSollTemperature deviceThermo "32").2 = ((32 : ℚ) / 2, none) ∧
    (getSollTemperature deviceThermo "253").2.2 = some FBError.deviceOff :=
  ⟨(getSollTemperature_spec deviceThermo "32" 32 rfl rfl (by decide)).2
      (by decide) (by decide),
   (getSollTemperature_spec deviceThermo "253" 253 rfl rfl (by decide)).1
      (Or.inl rfl)⟩

/- ### C10 -/

/-- Client.Auth always leaves a session on the client, whatever the
outcome: every branch stores the session back. -/
theorem clientAuth_session_isSome (c : Client) (now : Nat)
    (username password : String) (openNet authNet : Option SessionInfo) :
    ∃ s e, c.auth now username password openNet authNet =
      ({ c with session := some s }, e) := by
  simp only [Client.auth]
  repeat' first
  | exact ⟨_, _, rfl⟩
  | split

/-- C10: Client.Close is only safe when a session exists: on a client
fresh from NewClient the session is nil and Close dereferences it
(modelled as none), while after any call to Client.Auth, successful or
not, a session exists and Close resets its sid to the sentinel. -/
theorem close_safety :
    newClient.session = none ∧ Client.close newClient = none ∧
    ∀ (c : Client) (now : Nat) (username password : String)
      (openNet authNet : Option SessionInfo),
      ((c.auth now username password openNet authNet).1.session.isSome = true) ∧
      (((c.auth now username password openNet authNet).1.close).map
          (fun c2 => c2.session.map Session.sid)) = some (some DefaultSid) := by
  refine ⟨rfl, rfl, fun c now u p oN aN => ?_⟩
  obtain ⟨s, e, he⟩ := clientAuth_session_isSome c now u p oN aN
  rw [he]
  simp [Client.close, Session.close]

/- ### C4 -/

theorem bytesToHex_data (bs : List Nat) :
    (bytesToHex bs).data = flatMapL byteToHexChars bs := rfl

theorem flatMapL_mem {α β : Type} (f : α → List β) (l : List α) (b : β)
    (hb : b ∈ flatMapL f l) : ∃ a ∈ l, b ∈ f a := by
  induction l with
  | nil => simp [flatMapL] at hb
  | cons x t ih =>
    simp only [flatMapL, List.mem_append] at hb
    rcases hb with h | h
    · exact ⟨x, List.mem_cons_self x t, h⟩
    · obtain ⟨a, ha, hfa⟩ := ih h
      exact ⟨a, List.mem_cons_of_mem x ha, hfa⟩

theorem hexDigit_mem (n : Nat) (h : n < 16) :
    hexDigit n ∈ ("0123456789abcdef").data := by
  interval_cases n <;> decide

/-- Every character the hex formatter emits is a lowercase hex digit. -/
theorem bytesToHex_lowercase (bs : List Nat) :
    ∀ ch ∈ (bytesToHex bs).data, ch ∈ ("0123456789abcdef").data := by
  intro ch hch
  rw [bytesToHex_data] at hch
  obtain ⟨b, _, hb⟩ := flatMapL_mem byteToHexChars bs ch hch
  simp only [byteToHexChars, List.mem_cons, List.not_mem_nil, or_false] at hb
  rcases hb with h | h <;> subst h
  · exact hexDigit_mem _ (Nat.mod_lt _ (by norm_num))
  · exact hexDigit_mem _ (Nat.mod_lt _ (by norm_num))

/-- A basic-plane character above 255 contributes exactly the
substituted byte pair 0x2E 0x00. -/
theorem subEncode_bmp (c : Char) (h1 : 255 < c.toNat) (h2 : c.toNat ≤ 65535) :
    flatMapL subB16 (encodeChar c) = [46, 0] := by
  have h3 : c.toNat < 65536 := by omega
  simp [encodeChar, subB16, flatMapL, h3, h1]

/-- The hashed byte stream is invariant under interchanging basic-plane
characters above code point 255. -/
theorem fritzEncode_congrList : ∀ l1 l2 : List Char,
    bmpSwapList l1 l2 = true →
    flatMapL subB16 (flatMapL encodeChar l1) =
      flatMapL subB16 (flatMapL encodeChar l2) := by
  intro l1
  induction l1 with
  | nil =>
    intro l2 h
    cases l2 with
    | nil => rfl
    | cons c t => simp [bmpSwapList] at h
  | cons c1 t1 ih =>
    intro l2 h
    cases l2 with
    | nil => simp [bmpSwapList] at h
    | cons c2 t2 =>
      simp only [bmpSwapList, Bool.and_eq_true, Bool.or_eq_true, beq_iff_eq,
        decide_eq_true_eq] at h
      obtain ⟨hhead, htail⟩ := h
      have htl := ih t2 htail
      have hheads : flatMapL subB16 (encodeChar c1) =
          flatMapL subB16 (encodeChar c2) := by
        rcases hhead with h | ⟨⟨⟨ha1, ha2⟩, hb1⟩, hb2⟩
        · rw [h]
        · rw [subEncode_bmp c1 ha1 ha2, subEncode_bmp c2 hb1 hb2]
      calc flatMapL subB16 (flatMapL encodeChar (c1 :: t1))
          = flatMapL subB16 (encodeChar c1) ++
              flatMapL subB16 (flatMapL encodeChar t1) := by
            simp only [flatMapL, flatMapL_append]
        _ = flatMapL subB16 (encodeChar c2) ++
              flatMapL subB16 (flatMapL encodeChar t2) := by
            rw [hheads, htl]
        _ = flatMapL subB16 (flatMapL encodeChar (c2 :: t2)) := by
            simp only [flatMapL, flatMapL_append]

/-- C4 (amended): computeResponse prepends the challenge and a dash to
the digest of the substituted UTF-16LE bytes of challenge-dash-secret;
this digest renders as exactly 32 lowercase hexadecimal characters; and
interchanging characters above code point 255 that stay within the
16-bit range leaves the output unchanged. -/
theorem computeResponse_spec (challenge secret : String) :
    computeResponse challenge secret =
      challenge ++ "-" ++
        bytesToHex (md5 (fritzEncode (challenge ++ "-" ++ secret))) ∧
    (bytesToHex (md5 (fritzEncode (challenge ++ "-" ++ secret)))).length = 32 ∧
    (∀ ch ∈ (bytesToHex (md5 (fritzEncode (challenge ++ "-" ++ secret)))).data,
      ch ∈ ("0123456789abcdef").data) ∧
    ∀ secret2 : String,
      bmpSwapList (challenge ++ "-" ++ secret).data
          (challenge ++ "-" ++ secret2).data = true →
      computeResponse challenge secret = computeResponse challenge secret2 := by
  refine ⟨rfl, ?_, bytesToHex_lowercase _, fun secret2 hs => ?_⟩
  · rw [bytesToHex_length, md5_length]
  · simp only [computeResponse, fritzEncode, utf16Encode]
    rw [fritzEncode_congrList _ _ hs]

/-- Witness for computeResponse_spec: exchanging U+20AC for U+0192
(both above 255, both basic-plane) leaves the response unchanged, and
the second repository test vector has a 32-character digest. -/
theorem computeResponse_spec_witness :
    computeResponse "1234567z" "äbz€" = computeResponse "1234567z" "äbzƒ" ∧
    (bytesToHex (md5 (fritzEncode ("1234567z" ++ "-" ++ "äbz€")))).length = 32 :=
  ⟨(computeResponse_spec "1234567z" "äbz€").2.2.2 "äbzƒ" (by decide),
   (computeResponse_spec "1234567z" "äbz€").2.1⟩

/-- C4 counterexample: replacing U+0101 by U+1D11E relates the combined
strings under the substitution the claim states (both characters are
above code point 255), yet the responses differ, because the
supplementary character encodes as two UTF-16 code units and therefore
two substituted dots. -/
theorem computeResponse_surrogate_counterexample :
    claimSwapList ("a" ++ "-" ++ "ā").data ("a" ++ "-" ++ "𝄞").data = true ∧
    computeResponse "a" "ā" ≠ computeResponse "a" "𝄞" := by
  decide

/-- C8 (amended): every space character (U+0020) is removed from the
identifier before it is placed in the ain parameter of a command URL:
whenever GetPower issues a request its parameters carry the cleaned
identifier, cleaning removes every space and keeps every other
character in order, and the documented example holds. -/
theorem cleanAin_spec (d : Device) (body str : String) :
    ((getPower d body).1 = none ∨
      (getPower d body).1 =
        some [("switchcmd", "getswitchpower"), ("ain", cleanAin d.identifier)]) ∧
    (' ' ∉ (cleanAin str).data) ∧
    ((cleanAin str).data = str.data.filter (fun c => c != ' ')) ∧
    cleanAin " 1234 5678" = "12345678" := by
  refine ⟨?_, ?_, rfl, by decide⟩
  · unfold getPower
    rcases h : precheck d false with _ | e
    · by_cases he : d.hasEnergy <;> simp [he, commandURL]
      rcases h2 : goParseInt (goTrimSpace body) with _ | v <;> simp
    · simp
  · intro hmem
    simp only [cleanAin, List.mem_filter, bne_iff_ne, ne_eq,
      not_true_eq_false, and_false] at hmem

/-- C8 counterexample: a tab character survives cleaning and reaches
the ain parameter, against the claim that all whitespace is removed. -/
theorem cleanAin_whitespace_counterexample :
    (getPower ⟨"\t1234 5678", true, 128, "", "", "", false⟩ "0").1 =
      some [("switchcmd", "getswitchpower"), ("ain", "\t12345678")] ∧
    specStripWhitespace "\t1234 5678" = "12345678" ∧
    cleanAin "\t1234 5678" ≠ specStripWhitespace "\t1234 5678" := by
  decide

theorem toString_len2 (n : ℤ) (h1 : 16 ≤ n) (h2 : n ≤ 56) :
    ¬ (toString n).length < 2 := by
  interval_cases n <;> decide

theorem roundHalfEven_bounds (q : ℚ) (h1 : (16 : ℚ) ≤ q) (h2 : q ≤ 56) :
    16 ≤ roundHalfEven q ∧ roundHalfEven q ≤ 56 := by
  have hf1 : (16 : ℤ) ≤ ⌊q⌋ := Int.le_floor.mpr (by exact_mod_cast h1)
  have hf2 : ⌊q⌋ ≤ 56 := by
    have h := Int.floor_le_floor (α := ℚ) h2
    simpa using h
  have hfr : (⌊q⌋ : ℚ) ≤ q := Int.floor_le q
  unfold roundHalfEven
  split_ifs with ha hb hc
  · exact ⟨hf1, hf2⟩
  · constructor
    · omega
    · have h55 : (⌊q⌋ : ℚ) < 56 - 1 / 2 := by linarith
      have : ⌊q⌋ < 56 := by
        by_contra hcon
        push_neg at hcon
        have : (56 : ℚ) ≤ (⌊q⌋ : ℚ) := by exact_mod_cast hcon
        linarith
      omega
  · exact ⟨hf1, hf2⟩
  · constructor
    · omega
    · have heq : q - ⌊q⌋ = 1 / 2 := le_antisymm (not_lt.mp hb) (not_lt.mp ha)
      have h55 : (⌊q⌋ : ℚ) = q - 1 / 2 := by linarith
      have : ⌊q⌋ < 56 := by
        by_contra hcon
        push_neg at hcon
        have : (56 : ℚ) ≤ (⌊q⌋ : ℚ) := by exact_mod_cast hcon
        linarith
      omega

theorem sprintf_no_pad (q : ℚ) (h1 : (16 : ℚ) ≤ q) (h2 : q ≤ 56) :
    sprintfW2P0 q = toString (roundHalfEven q) := by
  obtain ⟨hb1, hb2⟩ := roundHalfEven_bounds q h1 h2
  simp [sprintfW2P0, toString_len2 _ hb1 hb2]

/-- C6 (amended): for a connected, unlocked thermostat, degrees outside
[8, 28] fail with InvalidArgument without a request; degrees inside the
interval send degrees * 2 rounded to the nearest integer with ties to
even (the rounding of Go %2.0f) as an unpadded base-10 string, and the
call fails with InconsistentResponse exactly when the trimmed echoed
body differs from the sent parameter. -/
theorem setSollTemperature_spec (d : Device) (temp : ℚ) (body : String)
    (hc : d.connected = true) (hl : d.lock = false)
    (ht : d.isThermostat = true) :
    ((temp < 8 ∨ 28 < temp) →
      setSollTemperature d temp body = (none, some FBError.invalidArgument)) ∧
    (8 ≤ temp → temp ≤ 28 →
      setSollTemperature d temp body =
        (some (sprintfW2P0 (temp * 2)),
         if goTrimSpace body = sprintfW2P0 (temp * 2) then none
         else some FBError.inconsistentResponse)) ∧
    (8 ≤ temp → temp ≤ 28 →
      sprintfW2P0 (temp * 2) = toString (roundHalfEven (temp * 2)) ∧
      16 ≤ roundHalfEven (temp * 2) ∧ roundHalfEven (temp * 2) ≤ 56) := by
  refine ⟨fun hr => ?_, fun h8 h28 => ?_, fun h8 h28 => ?_⟩
  · rcases hr with h | h <;>
      simp [setSollTemperature, precheck, Device.isConnected, Device.isLocked,
        hc, hl, ht, h]
  · have hnr : ¬ (temp < 8 ∨ temp > 28) := by
      push_neg
      exact ⟨h8, h28⟩
    by_cases hm : goTrimSpace body = sprintfW2P0 (temp * 2) <;>
      simp [setSollTemperature, precheck, Device.isConnected, Device.isLocked,
        hc, hl, ht, hnr, hm]
  · have hh1 : (16 : ℚ) ≤ temp * 2 := by linarith
    have hh2 : temp * 2 ≤ 56 := by linarith
    exact ⟨sprintf_no_pad _ hh1 hh2, roundHalfEven_bounds _ hh1 hh2⟩

/-- Witness for setSollTemperature_spec: 24 degrees sends "48" and a
matching echo succeeds; 30 degrees is rejected without a request. -/
theorem setSollTemperature_spec_witness :
    setSollTemperature deviceThermo 24 "48" = (some "48", none) ∧
    setSollTemperature deviceThermo 30 "48" =
      (none, some FBError.invalidArgument) := by
  have hs : sprintfW2P0 ((24 : ℚ) * 2) = "48" := by
    rw [sprintf_no_pad _ (by norm_num) (by norm_num)]
    have h48 : (24 : ℚ) * 2 = ((48 : ℤ) : ℚ) := by norm_num
    unfold roundHalfEven
    rw [h48, Int.floor_intCast]
    norm_num
    decide
  constructor
  · have h := (setSollTemperature_spec deviceThermo 24 "48" rfl rfl rfl).2.1
      (by norm_num) (by norm_num)
    rw [h, hs]
    decide
  · exact (setSollTemperature_spec deviceThermo 30 "48" rfl rfl rfl).1
      (Or.inr (by norm_num))

/-- C6 counterexample: at 8.25 degrees the code sends "16" (16.5
rounded half to even by the %2.0f formatting), while round(8.25 * 2)
is 17, so the parameter the claim predicts is "17". -/
theorem setSollTemperature_tie_counterexample :
    (8 : ℚ) ≤ 33 / 4 ∧ (33 / 4 : ℚ) ≤ 28 ∧
    (setSollTemperature deviceThermo (33 / 4) "16").1 = some "16" ∧
    claimedSetSollParam (33 / 4) = "17" := by
  have hfloor : ⌊(33 / 2 : ℚ)⌋ = 16 := by
    rw [Int.floor_eq_iff]
    norm_num
  have hparam : sprintfW2P0 ((33 / 4 : ℚ) * 2) = "16" := by
    rw [sprintf_no_pad _ (by norm_num) (by norm_num)]
    have h2 : (33 / 4 : ℚ) * 2 = 33 / 2 := by norm_num
    unfold roundHalfEven
    rw [h2, hfloor]
    norm_num
    decide
  have hrange : ¬ ((33 / 4 : ℚ) < 8 ∨ (33 / 4 : ℚ) > 28) := by
    push_neg
    constructor <;> norm_num
  refine ⟨by norm_num, by norm_num, ?_, ?_⟩
  · simp [setSollTemperature, precheck, deviceThermo, Device.isConnected,
      Device.isLocked, Device.isThermostat, hrange, hparam, apply_ite]
  · have hq : (33 / 4 : ℚ) * 2 + 1 / 2 = ((17 : ℤ) : ℚ) := by norm_num
    unfold claimedSetSollParam
    rw [round_eq, hq, Int.floor_intCast]
    rfl

/-- Witness for cleanAin_spec at a concrete device and the documented
example identifier. -/
theorem cleanAin_spec_witness :
    ((getPower deviceEnergy "0").1 = none ∨
      (getPower deviceEnergy "0").1 =
        some [("switchcmd", "getswitchpower"),
              ("ain", cleanAin deviceEnergy.identifier)]) ∧
    cleanAin " 1234 5678" = "12345678" :=
  ⟨(cleanAin_spec deviceEnergy "0" " 1234 5678").1,
   (cleanAin_spec deviceEnergy "0" " 1234 5678").2.2.2⟩

/-- Witness for close_safety: a fresh client pushed through a failing
Auth still carries a session and can be closed. -/
theorem close_safety_witness :
    ((Client.auth newClient 0 "u" "p" none none).1.session).isSome = true ∧
    (((Client.auth newClient 0 "u" "p" none none).1.close).map
        (fun c2 => c2.session.map Session.sid)) = some (some DefaultSid) :=
  close_safety.2.2 newClient 0 "u" "p" none none

